import Mathlib

/-!
Verification of the one-shot MySQL-to-CSV ingestion job (`ingesta.py`): the
deterministic mock-data generator, the conditional seeding policy, SQL
identifier escaping, CSV serialization, and the run's configuration phase.
All definitions are shallow embeddings of the corresponding Python
functions; machine values are modelled with `Nat`/`Int` and Python strings
with Lean `String`.
-/

namespace Ingesta

/-- A scalar produced by the mock generator or stored in a table row.
`float n` stands for the Python float whose exact value is the integer `n`
(all floats this program produces are integral and exactly representable). -/
inductive MockValue where
  | int : Int → MockValue
  | float : Int → MockValue
  | str : String → MockValue
  deriving DecidableEq, Repr

/-- Contiguous-subsequence test on character lists: `containsSeq nd hay`
is true when `nd` occurs as a contiguous run inside `hay`. -/
def containsSeq (nd : List Char) : List Char → Bool
  | [] => nd.isEmpty
  | c :: t => nd.isPrefixOf (c :: t) || containsSeq nd t

/-- Python `needle in hay` on strings: contiguous substring test. -/
def strIn (needle hay : String) : Bool :=
  containsSeq needle.data hay.data

/-- Python `hay.startswith(p)`. -/
def strStarts (p hay : String) : Bool :=
  p.data.isPrefixOf hay.data

/-- Python `s.lower()` (character-wise ASCII lowering). -/
def lowerStr (s : String) : String :=
  ⟨s.data.map Char.toLower⟩

/-- Gregorian leap-year test (Python `datetime` uses the proleptic
Gregorian calendar). -/
def isLeap (y : Nat) : Bool :=
  y % 4 == 0 && (!(y % 100 == 0) || y % 400 == 0)

/-- Number of days in month `m` of year `y`. -/
def daysInMonth (y m : Nat) : Nat :=
  if m == 2 then (if isLeap y then 29 else 28)
  else if m == 4 || m == 6 || m == 9 || m == 11 then 30
  else 31

/-- The calendar day after `(y, m, d)`. -/
def nextDay (y m d : Nat) : Nat × Nat × Nat :=
  if d < daysInMonth y m then (y, m, d + 1)
  else if m < 12 then (y, m + 1, 1)
  else (y + 1, 1, 1)

/-- `(y, m, d)` advanced by `n` days: Python `date + timedelta(days=n)`. -/
def addDays : Nat → Nat → Nat → Nat → Nat × Nat × Nat
  | y, m, d, 0 => (y, m, d)
  | y, m, d, n + 1 =>
    match nextDay y m d with
    | (y2, m2, d2) => addDays y2 m2 d2 n

/-- Two-digit zero-padded decimal rendering. -/
def pad2 (n : Nat) : String :=
  if n < 10 then "0" ++ toString n else toString n

/-- `date.isoformat()` for a (year, month, day) triple: `YYYY-MM-DD`. -/
def isoDateOf : Nat × Nat × Nat → String
  | (y, m, d) => toString y ++ "-" ++ pad2 m ++ "-" ++ pad2 d

/-- `(datetime(2024,1,1) + timedelta(days=n)).date().isoformat()`. -/
def mockDateString (n : Nat) : String :=
  isoDateOf (addDays 2024 1 1 n)

/-- `(datetime(2024,1,1,12,0,0) + timedelta(hours=n)).strftime("%Y-%m-%d %H:%M:%S")`. -/
def mockDateTimeString (n : Nat) : String :=
  isoDateOf (addDays 2024 1 1 ((12 + n) / 24)) ++ " " ++ pad2 ((12 + n) % 24) ++ ":00:00"

/-- Shallow embedding of `generate_mock_value(column_type, column_name, row_index)`
from `ingesta.py`: the if-chain over the lowered type descriptor, verbatim. -/
def generate_mock_value (column_type column_name : String) (row_index : Nat) : MockValue :=
  let t := lowerStr column_type
  let ordinal := row_index + 1
  if strIn "int" t && strIn "unsigned" t then .int ordinal
  else if strStarts "int" t || strIn "bigint" t || strIn "smallint" t then .int ordinal
  else if strIn "decimal" t || strIn "numeric" t || strIn "float" t || strIn "double" t then
    .float ordinal
  else if strIn "bool" t || t == "tinyint(1)" then .int (row_index % 2)
  else if strIn "date" t && !strIn "time" t then .str (mockDateString row_index)
  else if strIn "datetime" t || strIn "timestamp" t || strIn "time" t then
    .str (mockDateTimeString row_index)
  else if strIn "char" t || strIn "text" t then
    .str ("mock_" ++ column_name ++ "_" ++ toString ordinal)
  else if strIn "json" t then
    .str ("\x7b\"mock\": \"" ++ column_name ++ "_" ++ toString ordinal ++ "\"\x7d")
  else .str ("mock_" ++ column_name ++ "_" ++ toString ordinal)

/-- The semantic value kinds of the spec's Type Classifier (section 4.1). -/
inductive SemanticKind where
  | unsignedInteger | signedInteger | decimal | boolean
  | date | dateTime | text | json | unknown
  deriving DecidableEq, Repr

/-- The spec's `classify(rawType)`: which branch of `generate_mock_value`'s
cascade fires, with the same conditions in the same order. -/
def classify (column_type : String) : SemanticKind :=
  let t := lowerStr column_type
  if strIn "int" t && strIn "unsigned" t then .unsignedInteger
  else if strStarts "int" t || strIn "bigint" t || strIn "smallint" t then .signedInteger
  else if strIn "decimal" t || strIn "numeric" t || strIn "float" t || strIn "double" t then
    .decimal
  else if strIn "bool" t || t == "tinyint(1)" then .boolean
  else if strIn "date" t && !strIn "time" t then .date
  else if strIn "datetime" t || strIn "timestamp" t || strIn "time" t then .dateTime
  else if strIn "char" t || strIn "text" t then .text
  else if strIn "json" t then .json
  else .unknown

/-- The spec's `generate(kind, columnName, rowOrdinal)` (section 4.2):
the branch bodies of `generate_mock_value`, dispatched on the kind. -/
def genForKind (kind : SemanticKind) (column_name : String) (row_index : Nat) : MockValue :=
  let ordinal := row_index + 1
  match kind with
  | .unsignedInteger => .int ordinal
  | .signedInteger => .int ordinal
  | .decimal => .float ordinal
  | .boolean => .int (row_index % 2)
  | .date => .str (mockDateString row_index)
  | .dateTime => .str (mockDateTimeString row_index)
  | .text => .str ("mock_" ++ column_name ++ "_" ++ toString ordinal)
  | .json => .str ("\x7b\"mock\": \"" ++ column_name ++ "_" ++ toString ordinal ++ "\"\x7d")
  | .unknown => .str ("mock_" ++ column_name ++ "_" ++ toString ordinal)

/-! ## Table state and the seeding policy (`seed_mock_data`) -/

/-- One row of MySQL `DESCRIBE` output, restricted to the keys the program
reads: `Field` (column name), `Type` (raw type descriptor), `Extra`
(holds `"auto_increment"` for auto-generated columns). -/
structure ColumnMeta where
  field : String
  ctype : String
  extra : String
  deriving DecidableEq, Repr

/-- A snapshot of the target table: its schema and its current rows. -/
structure TableState where
  schema : List ColumnMeta
  rows : List (List MockValue)
  deriving DecidableEq, Repr

/-- The insertable columns: schema columns whose `Extra` does not contain
`"auto_increment"`, in original schema order (the filter in `seed_mock_data`). -/
def insertable_columns (schema : List ColumnMeta) : List ColumnMeta :=
  schema.filter (fun column => !strIn "auto_increment" column.extra)

/-- Shallow embedding of `seed_mock_data(connection, table_name, rows_to_insert)`:
returns the resulting table state together with the number of rows inserted
(`0` on the skip paths, the length of the executed batch otherwise). -/
def seed_mock_data (table : TableState) (rows_to_insert : Nat) : TableState × Nat :=
  let existing_rows := table.rows.length
  if existing_rows ≠ 0 then (table, 0)
  else
    let insertable := insertable_columns table.schema
    if insertable.isEmpty then (table, 0)
    else
      let mock_rows := (List.range rows_to_insert).map
        (fun row_index => insertable.map
          (fun column => generate_mock_value column.ctype column.field row_index))
      ({ table with rows := table.rows ++ mock_rows }, mock_rows.length)

/-- Shallow embedding of `fetch_table_data`: all column names in schema
order and all rows. -/
def fetch_table_data (table : TableState) : List String × List (List MockValue) :=
  (table.schema.map (fun c => c.field), table.rows)

/-! ## SQL identifier escaping and the issued statements -/

/-- The backtick character (written by code point to keep source plain). -/
def btChar : Char := '\x60'

/-- Python `name.replace(chr(96), chr(96)*2)` at character level: every
backtick is doubled, all other characters pass through. -/
def escChar (c : Char) : List Char :=
  if c = btChar then [btChar, btChar] else [c]

/-- `table_name.replace(chr(96), chr(96)*2)` — the sanitization applied to
every identifier before interpolation. -/
def sanitize (s : String) : String :=
  ⟨s.data.flatMap escChar⟩

/-- An identifier as it appears inside a statement: backtick-quoted
sanitized form. -/
def quoteIdent (s : String) : String :=
  "`" ++ sanitize s ++ "`"

/-- The `SELECT COUNT(*)` statement issued by `seed_mock_data`. -/
def count_query (table_name : String) : String :=
  "SELECT COUNT(*) AS count FROM `" ++ sanitize table_name ++ "`"

/-- The `DESCRIBE` statement issued by `seed_mock_data`. -/
def describe_query (table_name : String) : String :=
  "DESCRIBE `" ++ sanitize table_name ++ "`"

/-- The `INSERT` statement issued by `seed_mock_data` for the given
insertable column names. -/
def insert_query (table_name : String) (column_names : List String) : String :=
  "INSERT INTO `" ++ sanitize table_name ++ "` (" ++
    String.intercalate ", " (column_names.map (fun name => "`" ++ sanitize name ++ "`")) ++
    ") VALUES (" ++ String.intercalate ", " (List.replicate column_names.length "%s") ++ ")"

/-- The `SELECT *` statement issued by `fetch_table_data`. -/
def select_query (table_name : String) : String :=
  "SELECT * FROM `" ++ sanitize table_name ++ "`"

/-- A MySQL-style reader for the interior of a backtick-quoted identifier:
given the characters following the opening backtick, returns the identifier
(with doubled backticks collapsed) and the characters after the closing
backtick, or `none` if the quote is unterminated. -/
def readQuoted : List Char → Option (List Char × List Char)
  | [] => none
  | [c] => if c = btChar then some ([], []) else none
  | c :: d :: t =>
    if c = btChar then
      if d = btChar then (readQuoted t).map (fun p => (btChar :: p.1, p.2))
      else some ([], d :: t)
    else (readQuoted (d :: t)).map (fun p => (c :: p.1, p.2))

/-! ## Configuration and the run's phase order (`main`) -/

/-- The process environment: a partial map from variable names to values. -/
def Env : Type := String → Option String

/-- The connection parameters assembled by `get_db_config`. -/
structure DbConfig where
  host : String
  port : Nat
  user : String
  password : String
  database : String
  deriving DecidableEq, Repr

/-- Accumulate decimal digits; `none` on the first non-digit. -/
def digitsToNat : List Char → Nat → Option Nat
  | [], acc => some acc
  | c :: t, acc =>
    if c.isDigit then digitsToNat t (acc * 10 + (c.toNat - 48)) else none

/-- Python `int(s)` restricted to the plain decimal-digit shape the
program's port strings take: `none` models the `ValueError` raise. -/
def parseNat (s : String) : Option Nat :=
  if s.data.isEmpty then none else digitsToNat s.data 0

/-- Shallow embedding of `get_db_config()`: requires `MYSQL_USER`,
`MYSQL_PASSWORD`, `MYSQL_DATABASE`; defaults host and port; a malformed
port is a fatal error (Python's `int(...)` raising). -/
def get_db_config (env : Env) : Except String DbConfig :=
  match env "MYSQL_USER", env "MYSQL_PASSWORD", env "MYSQL_DATABASE" with
  | some user, some password, some database =>
    match parseNat ((env "MYSQL_PORT").getD "3306") with
    | some port => .ok ⟨(env "MYSQL_HOST").getD "localhost", port, user, password, database⟩
    | none => .error "invalid MYSQL_PORT"
  | _, _, _ => .error "Missing required environment variable"

/-- Shallow embedding of `get_table_name()`: `MYSQL_TABLE` must be present
and non-empty. -/
def get_table_name (env : Env) : Except String String :=
  match env "MYSQL_TABLE" with
  | some t =>
    if t = "" then .error "Environment variable MYSQL_TABLE must be set with the table to export"
    else .ok t
  | none => .error "Environment variable MYSQL_TABLE must be set with the table to export"

/-- Shallow embedding of `should_seed_mock_data()`. -/
def should_seed_mock_data (env : Env) : Bool :=
  let flag := lowerStr ((env "SEED_MOCK_DATA").getD "true")
  flag == "1" || flag == "true" || flag == "yes"

/-- The externally observable phases of one run of `main`, in order. -/
inductive RunEvent where
  | configError : String → RunEvent
  | connect : RunEvent
  | tableError : String → RunEvent
  | seedPhase : RunEvent
  | fetchPhase : RunEvent
  | writePhase : RunEvent
  | uploadPhase : RunEvent
  | close : RunEvent
  deriving DecidableEq, Repr

/-- Shallow embedding of the control flow of `main()`: the sequence of
phases a run performs. `mysql.connector.connect` is called right after
`get_db_config()` succeeds; `get_table_name()` runs only after the
connection is open, inside the `try` whose `finally` closes it. -/
def main_run (env : Env) : List RunEvent :=
  match get_db_config env with
  | .error m => [.configError m]
  | .ok _ =>
    .connect ::
      (match get_table_name env with
       | .error m => [.tableError m, .close]
       | .ok _ =>
         (if should_seed_mock_data env then [.seedPhase] else []) ++
           [.fetchPhase, .writePhase, .uploadPhase, .close])

/-! ## CSV serialization (`write_csv`) and a parser for the artifact

`csv.writer` with the default dialect: comma delimiter, double-quote
quotechar, QUOTE_MINIMAL (quote a field iff it contains the delimiter, the
quotechar, or a line-terminator character, doubling embedded quotechars),
`\r\n` record terminator, and a lone empty field written as `""`. -/

/-- A scalar as extracted from the database, restricted to the shapes the
claims exercise; `null` is Python `None`. -/
inductive Value where
  | int : Int → Value
  | str : String → Value
  | null : Value
  deriving DecidableEq, Repr

/-- `csv.writer`'s stringification of one scalar: `str(x)`, with `None`
written as the empty field. -/
def valueToField : Value → String
  | .int n => toString n
  | .str s => s
  | .null => ""

/-- QUOTE_MINIMAL: does this field need quoting? -/
def needsQuote (f : List Char) : Bool :=
  f.any (fun c => c == ',' || c == '"' || c == '\r' || c == '\n')

/-- Double an embedded quotechar. -/
def escQuote (c : Char) : List Char :=
  if c = '"' then ['"', '"'] else [c]

/-- One encoded field. -/
def encField (f : List Char) : List Char :=
  if needsQuote f then '"' :: f.flatMap escQuote ++ ['"'] else f

/-- Join encoded fields with the comma delimiter. -/
def joinFields : List (List Char) → List Char
  | [] => []
  | [f] => f
  | f :: g :: t => f ++ ',' :: joinFields (g :: t)

/-- One encoded record, `\r\n`-terminated; a record consisting of exactly
one empty field is written `""` (the csv module's disambiguation from a
blank line). -/
def encRow (r : List (List Char)) : List Char :=
  (if r = [[]] then ['"', '"'] else joinFields (r.map encField)) ++ ['\r', '\n']

/-- The whole artifact: the records in order. -/
def encCsv (recs : List (List (List Char))) : List Char :=
  (recs.map encRow).flatten

/-- Shallow embedding of `write_csv(file_path, columns, rows)`: the text
written to the file — header record of column names, then one record per
row. -/
def write_csv (columns : List String) (rows : List (List Value)) : String :=
  ⟨encCsv ((columns.map String.data) ::
    rows.map (fun r => r.map (fun v => (valueToField v).data)))⟩

/-- Parser mode: start of record, start of a later field, inside an
unquoted field, inside quotes, just after a quote inside quotes, or just
after a carriage return. -/
inductive CsvMode where
  | rstart | fstart | unq | q | qq | cr0
  deriving DecidableEq, Repr

/-- Parser state: mode, current field (reversed), current record's
finished fields (reversed), finished records (reversed). -/
structure CsvState where
  mode : CsvMode
  fieldAcc : List Char
  rowAcc : List (List Char)
  recsAcc : List (List (List Char))
  deriving Repr

/-- One step of the CSV reading automaton. -/
def csvStep (s : CsvState) (c : Char) : CsvState :=
  match s.mode with
  | .rstart =>
    if c = '"' then { s with mode := .q }
    else if c = ',' then { s with mode := .fstart, rowAcc := [] :: s.rowAcc }
    else if c = '\r' then
      { s with mode := .cr0, recsAcc := s.rowAcc.reverse :: s.recsAcc, rowAcc := [] }
    else { s with mode := .unq, fieldAcc := [c] }
  | .fstart =>
    if c = '"' then { s with mode := .q }
    else if c = ',' then { s with rowAcc := [] :: s.rowAcc }
    else if c = '\r' then
      { s with mode := .cr0, recsAcc := ([] :: s.rowAcc).reverse :: s.recsAcc,
               rowAcc := [], fieldAcc := [] }
    else { s with mode := .unq, fieldAcc := [c] }
  | .unq =>
    if c = ',' then
      { s with mode := .fstart, rowAcc := s.fieldAcc.reverse :: s.rowAcc, fieldAcc := [] }
    else if c = '\r' then
      { s with mode := .cr0, recsAcc := (s.fieldAcc.reverse :: s.rowAcc).reverse :: s.recsAcc,
               rowAcc := [], fieldAcc := [] }
    else { s with fieldAcc := c :: s.fieldAcc }
  | .q =>
    if c = '"' then { s with mode := .qq }
    else { s with fieldAcc := c :: s.fieldAcc }
  | .qq =>
    if c = '"' then { s with mode := .q, fieldAcc := '"' :: s.fieldAcc }
    else if c = ',' then
      { s with mode := .fstart, rowAcc := s.fieldAcc.reverse :: s.rowAcc, fieldAcc := [] }
    else if c = '\r' then
      { s with mode := .cr0, recsAcc := (s.fieldAcc.reverse :: s.rowAcc).reverse :: s.recsAcc,
               rowAcc := [], fieldAcc := [] }
    else { s with mode := .unq, fieldAcc := c :: s.fieldAcc }
  | .cr0 => { s with mode := .rstart }

/-- Flush the automaton at end of input. -/
def csvFinish (s : CsvState) : List (List (List Char)) :=
  match s.mode with
  | .rstart => s.recsAcc.reverse
  | .cr0 => s.recsAcc.reverse
  | _ => ((s.fieldAcc.reverse :: s.rowAcc).reverse :: s.recsAcc).reverse

/-- Parse a CSV artifact back into records of fields. -/
def parseCsvChars (l : List Char) : List (List (List Char)) :=
  csvFinish (l.foldl csvStep ⟨.rstart, [], [], []⟩)

/-- String-level wrapper of the parser. -/
def parse_csv (s : String) : List (List String) :=
  (parseCsvChars s.data).map (fun r => r.map String.mk)

/-! ## Concrete fixtures used by witnesses and counterexamples -/

/-- A table that already holds five rows (the spec's example). -/
def exampleNonempty : TableState :=
  ⟨[⟨"id", "int", "auto_increment"⟩, ⟨"name", "text", ""⟩],
   List.replicate 5 [.int 1, .str "x"]⟩

/-- An empty table with an auto-increment key and two plain columns. -/
def exampleEmpty : TableState :=
  ⟨[⟨"id", "int unsigned", "auto_increment"⟩, ⟨"name", "text", ""⟩, ⟨"qty", "int", ""⟩], []⟩

/-- An environment with full connection credentials but no `MYSQL_TABLE`. -/
def envMissingTable : Env := fun k =>
  if k = "MYSQL_USER" then some "u"
  else if k = "MYSQL_PASSWORD" then some "p"
  else if k = "MYSQL_DATABASE" then some "d"
  else none

/-- The ten decimal digit characters. -/
def digitChars : List Char := ['0', '1', '2', '3', '4', '5', '6', '7', '8', '9']

/-! ## The generator factors through the classifier -/

/-- The generator factors through the classifier: `generate_mock_value` is
`genForKind` of the classified kind. -/
theorem generate_eq_genForKind (ct name : String) (i : Nat) :
    generate_mock_value ct name i = genForKind (classify ct) name i := by
  simp only [generate_mock_value, classify, genForKind]
  split_ifs <;> rfl

/-! ## Round-trip lemmas for the CSV automaton -/

/-- Feeding the quote-doubled content of a field while inside quotes
accumulates exactly that content. -/
theorem feedEscQuote (f : List Char) (a : List Char) (ρ : List (List Char))
    (R : List (List (List Char))) :
    (f.flatMap escQuote).foldl csvStep ⟨.q, a, ρ, R⟩ = ⟨.q, f.reverse ++ a, ρ, R⟩ := by
  induction f generalizing a with
  | nil => simp
  | cons c f ih =>
    by_cases hc : c = '"'
    · subst hc
      simp [escQuote, csvStep, ih]
    · simp [escQuote, hc, csvStep, ih]

/-- Feeding an unquotable field body while in an unquoted field
accumulates exactly that content. -/
theorem feedUnq (f : List Char) (a : List Char) (ρ : List (List Char))
    (R : List (List (List Char))) (h : needsQuote f = false) :
    f.foldl csvStep ⟨.unq, a, ρ, R⟩ = ⟨.unq, f.reverse ++ a, ρ, R⟩ := by
  induction f generalizing a with
  | nil => simp
  | cons c f ih =>
    simp only [needsQuote, List.any_cons, Bool.or_eq_false_iff, beq_eq_false_iff_ne,
      ne_eq] at h
    obtain ⟨⟨⟨⟨h1, h2⟩, h3⟩, h4⟩, h5⟩ := h
    rw [List.foldl_cons]
    have hstep : csvStep ⟨.unq, a, ρ, R⟩ c = ⟨.unq, c :: a, ρ, R⟩ := by
      simp [csvStep, h1, h3]
    rw [hstep, ih _ h5]
    simp

/-- Where the automaton lands after one whole encoded field, starting at a
field-start mode. -/
theorem feedEncField (f : List Char) (m : CsvMode) (ρ : List (List Char))
    (R : List (List (List Char))) (hm : m = .fstart ∨ m = .rstart) :
    List.foldl csvStep ⟨m, [], ρ, R⟩ (encField f) =
      if needsQuote f then ⟨.qq, f.reverse, ρ, R⟩
      else if f = [] then ⟨m, [], ρ, R⟩
      else ⟨.unq, f.reverse, ρ, R⟩ := by
  have hmstep : ∀ c, c ≠ '\r' → csvStep ⟨m, [], ρ, R⟩ c = csvStep ⟨.fstart, [], ρ, R⟩ c := by
    rcases hm with rfl | rfl
    · intro c _; rfl
    · intro c hcr; simp [csvStep, hcr]
  by_cases hq : needsQuote f = true
  · simp only [encField, hq, if_true]
    rw [List.cons_append, List.foldl_cons, hmstep '"' (by decide)]
    have h1 : csvStep ⟨.fstart, [], ρ, R⟩ '"' = ⟨.q, [], ρ, R⟩ := by simp [csvStep]
    rw [h1, List.foldl_append, feedEscQuote]
    simp [csvStep]
  · have hq' : needsQuote f = false := by simpa using hq
    simp only [encField, hq', Bool.false_eq_true, if_false]
    cases f with
    | nil => simp
    | cons c f =>
      simp only [needsQuote, List.any_cons, Bool.or_eq_false_iff, beq_eq_false_iff_ne,
        ne_eq] at hq'
      obtain ⟨⟨⟨⟨h1, h2⟩, h3⟩, h4⟩, h5⟩ := hq'
      rw [List.foldl_cons, hmstep c h3]
      have hc : csvStep ⟨.fstart, [], ρ, R⟩ c = ⟨.unq, [c], ρ, R⟩ := by
        simp [csvStep, h1, h2, h3]
      rw [hc, feedUnq _ _ _ _ h5]
      simp

/-- Feeding one encoded field from a field-start mode, then one comma,
closes exactly that field and returns to field-start. -/
theorem feedFieldComma (f : List Char) (m : CsvMode) (ρ : List (List Char))
    (R : List (List (List Char))) (hm : m = .fstart ∨ m = .rstart) :
    (encField f ++ [',']).foldl csvStep ⟨m, [], ρ, R⟩ = ⟨.fstart, [], f :: ρ, R⟩ := by
  rw [List.foldl_append, feedEncField f m ρ R hm]
  by_cases hq : needsQuote f = true
  · simp [hq, csvStep]
  · have hq' : needsQuote f = false := by simpa using hq
    by_cases hf : f = []
    · subst hf
      rcases hm with rfl | rfl <;> simp [hq', csvStep]
    · simp [hq', hf, csvStep]

/-- Feeding one encoded field from a field-start mode, then `\r\n`,
closes that field and the current record. -/
theorem feedFieldCrlf (f : List Char) (m : CsvMode) (ρ : List (List Char))
    (R : List (List (List Char))) (hm : m = .fstart ∨ (m = .rstart ∧ f ≠ [])) :
    (encField f ++ ['\r', '\n']).foldl csvStep ⟨m, [], ρ, R⟩
      = ⟨.rstart, [], [], (f :: ρ).reverse :: R⟩ := by
  have hm' : m = .fstart ∨ m = .rstart := by tauto
  rw [List.foldl_append, feedEncField f m ρ R hm']
  by_cases hq : needsQuote f = true
  · simp [hq, csvStep]
  · have hq' : needsQuote f = false := by simpa using hq
    by_cases hf : f = []
    · subst hf
      rcases hm with rfl | ⟨rfl, hne⟩
      · simp [hq', csvStep]
      · cases hne rfl
    · simp [hq', hf, csvStep]

/-- Feeding a nonempty comma-joined list of encoded fields followed by
`\r\n` closes one whole record. The `rstart` start mode is allowed except
for the single-empty-field record, which the writer quotes separately. -/
theorem feedFields (fields : List (List Char)) (m : CsvMode) (ρ : List (List Char))
    (R : List (List (List Char))) (hm : m = .fstart ∨ m = .rstart)
    (hne : fields ≠ []) (hr : m = .rstart → fields ≠ [[]]) :
    (joinFields (fields.map encField) ++ ['\r', '\n']).foldl csvStep ⟨m, [], ρ, R⟩
      = ⟨.rstart, [], [], (ρ.reverse ++ fields) :: R⟩ := by
  induction fields generalizing m ρ with
  | nil => cases hne rfl
  | cons f rest ih =>
    cases rest with
    | nil =>
      have hm' : m = .fstart ∨ (m = .rstart ∧ f ≠ []) := by
        rcases hm with rfl | rfl
        · exact Or.inl rfl
        · refine Or.inr ⟨rfl, ?_⟩
          intro hfe
          exact hr rfl (by rw [hfe])
      rw [List.map_cons, List.map_nil]
      show (joinFields [encField f] ++ ['\r', '\n']).foldl csvStep ⟨m, [], ρ, R⟩ = _
      rw [joinFields, feedFieldCrlf f m ρ R hm']
      simp
    | cons g t =>
      rw [List.map_cons]
      have hjoin : joinFields (encField f :: (g :: t).map encField)
          = encField f ++ ',' :: joinFields ((g :: t).map encField) := by
        rw [List.map_cons]
        rfl
      rw [hjoin]
      have hsplit : (encField f ++ ',' :: joinFields ((g :: t).map encField)) ++ ['\r', '\n']
          = (encField f ++ [',']) ++ (joinFields ((g :: t).map encField) ++ ['\r', '\n']) := by
        simp
      rw [hsplit, List.foldl_append, feedFieldComma f m ρ R hm,
        ih .fstart (f :: ρ) (Or.inl rfl) (by simp) (fun h => nomatch h)]
      simp

/-- Feeding one encoded record from record-start appends exactly that
record. -/
theorem feedRow (r : List (List Char)) (R : List (List (List Char))) :
    (encRow r).foldl csvStep ⟨.rstart, [], [], R⟩ = ⟨.rstart, [], [], r :: R⟩ := by
  cases r with
  | nil => simp [encRow, joinFields, csvStep]
  | cons f rest =>
    cases rest with
    | nil =>
      cases f with
      | nil => simp [encRow, csvStep]
      | cons c f' =>
        have hne : ¬([c :: f'] = [[]]) := by simp
        rw [encRow, if_neg hne, feedFields [c :: f'] .rstart [] R (Or.inr rfl) (by simp)
          (by simp)]
        simp
    | cons g t =>
      have hne : ¬(f :: g :: t = [[]]) := by simp
      rw [encRow, if_neg hne, feedFields (f :: g :: t) .rstart [] R (Or.inr rfl) (by simp)
        (by simp)]
      simp

/-- Feeding a whole encoded artifact appends all its records in order. -/
theorem feedCsv (rs : List (List (List Char))) (R : List (List (List Char))) :
    ((rs.map encRow).flatten).foldl csvStep ⟨.rstart, [], [], R⟩
      = ⟨.rstart, [], [], rs.reverse ++ R⟩ := by
  induction rs generalizing R with
  | nil => simp
  | cons r rs ih =>
    rw [List.map_cons, List.flatten_cons, List.foldl_append, feedRow r R, ih (r :: R)]
    simp

/-- The parser inverts the encoder on every record list. -/
theorem parse_encCsv (rs : List (List (List Char))) : parseCsvChars (encCsv rs) = rs := by
  rw [parseCsvChars, encCsv, feedCsv rs []]
  simp [csvFinish]

/-- Rebuilding a string from its characters is the identity. -/
theorem mk_data (s : String) : String.mk s.data = s := rfl

/-- C9: exporting an extracted table writes the header record of column
names followed by one record per row, and parsing the artifact back yields
the same header and the same rows with every scalar replaced by its string
form. -/
theorem csv_export_roundtrip (columns : List String) (rows : List (List Value)) :
    parse_csv (write_csv columns rows)
      = columns :: rows.map (fun r => r.map valueToField) := by
  have hdata : (write_csv columns rows).data
      = encCsv ((columns.map String.data) ::
          rows.map (fun r => r.map (fun v => (valueToField v).data))) := rfl
  rw [parse_csv, hdata, parse_encCsv]
  simp [List.map_map, Function.comp_def, mk_data]

/-! ## Substring refutation helpers -/

/-- A prefix test fails when the candidate prefix holds a character the
other list lacks. -/
theorem isPrefixOf_eq_false_of_missing {nd hay : List Char} {c : Char}
    (hc : c ∈ nd) (hhay : c ∉ hay) : nd.isPrefixOf hay = false := by
  induction nd generalizing hay with
  | nil => cases hc
  | cons a nd ih =>
    cases hay with
    | nil => rfl
    | cons b hb =>
      rcases List.mem_cons.mp hc with rfl | hmem
      · have hab : (c == b) = false := beq_eq_false_iff_ne.mpr
          (fun h => hhay (by rw [h]; exact List.mem_cons_self b hb))
        simp [List.isPrefixOf, hab]
      · have : nd.isPrefixOf hb = false :=
          ih hmem (fun h => hhay (List.mem_cons_of_mem b h))
        simp [List.isPrefixOf, this]

/-- A substring test fails when the needle holds a character the haystack
lacks. -/
theorem containsSeq_eq_false_of_missing {nd hay : List Char} {c : Char}
    (hc : c ∈ nd) (hhay : c ∉ hay) : containsSeq nd hay = false := by
  induction hay with
  | nil =>
    cases nd with
    | nil => cases hc
    | cons a nd => rfl
  | cons b hb ih =>
    have h1 : nd.isPrefixOf (b :: hb) = false := isPrefixOf_eq_false_of_missing hc hhay
    have h2 : containsSeq nd hb = false := ih (fun h => hhay (List.mem_cons_of_mem b h))
    simp [containsSeq, h1, h2]

/-! ## C1 and C2: the seeding policy -/

/-- C2: seeding a table whose current row count is positive performs no
insert, leaves the table unchanged and reports zero inserted rows. -/
theorem seed_skips_nonempty (table : TableState) (rows_to_insert : Nat)
    (h : table.rows ≠ []) :
    seed_mock_data table rows_to_insert = (table, 0) := by
  rw [seed_mock_data]
  simp [List.length_eq_zero, h]

/-- Witness for C2 at a table with five rows and `rowsToInsert = 7`. -/
theorem seed_skips_nonempty_witness :
    exampleNonempty.rows ≠ [] ∧ seed_mock_data exampleNonempty 7 = (exampleNonempty, 0) :=
  ⟨by decide, seed_skips_nonempty exampleNonempty 7 (by decide)⟩

/-- C1: seeding an empty table with at least one insertable column inserts
exactly `k` rows in one batch, over the non-auto-generated columns in
schema order, each value produced by the mock generator; a `text` column
named `name` receives `mock_<name>_<i+1>` in row `i`. -/
theorem seed_fills_empty (table : TableState) (k : Nat)
    (hempty : table.rows = [])
    (hcols : insertable_columns table.schema ≠ []) :
    (seed_mock_data table k).2 = k ∧
    (seed_mock_data table k).1.schema = table.schema ∧
    (seed_mock_data table k).1.rows.length = k ∧
    (seed_mock_data table k).1.rows = (List.range k).map
      (fun i => (insertable_columns table.schema).map
        (fun col => generate_mock_value col.ctype col.field i)) ∧
    (∀ name i, generate_mock_value "text" name i
      = .str ("mock_" ++ name ++ "_" ++ toString (i + 1))) := by
  have h0 : table.rows.length = 0 := by rw [hempty]; rfl
  have hie : (insertable_columns table.schema).isEmpty = false := by
    rcases hc : insertable_columns table.schema with _ | ⟨a, l⟩
    · exact absurd hc hcols
    · rfl
  rw [seed_mock_data]
  simp only [h0, ne_eq, not_true_eq_false, if_false, hie, Bool.false_eq_true, hempty]
  refine ⟨by simp, rfl, by simp, by simp, fun name i => rfl⟩

/-- Witness for C1 at the empty example table with `rowsToInsert = 3`. -/
theorem seed_fills_empty_witness :
    exampleEmpty.rows = [] ∧ insertable_columns exampleEmpty.schema ≠ [] ∧
    ((seed_mock_data exampleEmpty 3).2 = 3 ∧
     (seed_mock_data exampleEmpty 3).1.schema = exampleEmpty.schema ∧
     (seed_mock_data exampleEmpty 3).1.rows.length = 3 ∧
     (seed_mock_data exampleEmpty 3).1.rows = (List.range 3).map
       (fun i => (insertable_columns exampleEmpty.schema).map
         (fun col => generate_mock_value col.ctype col.field i)) ∧
     (∀ name i, generate_mock_value "text" name i
       = .str ("mock_" ++ name ++ "_" ++ toString (i + 1)))) :=
  ⟨rfl, by decide, seed_fills_empty exampleEmpty 3 rfl (by decide)⟩

/-! ## C3-C6: the mock value generator by kind -/

/-- C3: for columns classified as unsigned or signed integers the
generator yields `rowOrdinal + 1`; for decimals, the float of
`rowOrdinal + 1`; for booleans, `rowOrdinal mod 2`. -/
theorem generator_numeric_kinds (ct name : String) (n : Nat) :
    (classify ct = .unsignedInteger ∨ classify ct = .signedInteger →
      generate_mock_value ct name n = .int (n + 1)) ∧
    (classify ct = .decimal → generate_mock_value ct name n = .float (n + 1)) ∧
    (classify ct = .boolean → generate_mock_value ct name n = .int (n % 2)) := by
  refine ⟨fun h => ?_, fun h => ?_, fun h => ?_⟩
  · rcases h with h | h <;> rw [generate_eq_genForKind, h] <;> rfl
  · rw [generate_eq_genForKind, h]; rfl
  · rw [generate_eq_genForKind, h]; rfl

/-- Witness for C3 at `bigint`, `decimal(10,2)` and `bool` columns. -/
theorem generator_numeric_kinds_witness :
    generate_mock_value "bigint" "c" 4 = .int 5 ∧
    generate_mock_value "decimal(10,2)" "c" 4 = .float 5 ∧
    generate_mock_value "bool" "c" 5 = .int 1 :=
  ⟨(generator_numeric_kinds "bigint" "c" 4).1 (Or.inr (by decide)),
   (generator_numeric_kinds "decimal(10,2)" "c" 4).2.1 (by decide),
   (generator_numeric_kinds "bool" "c" 5).2.2 (by decide)⟩

/-- C4: for Date columns the generator yields 2024-01-01 plus the row
ordinal in days as `YYYY-MM-DD`; for DateTime columns, 2024-01-01 12:00:00
plus the row ordinal in hours as `YYYY-MM-DD HH:MM:SS`; in particular
ordinals 0 and 31 give 2024-01-01 and 2024-02-01, and ordinals 0 and 1
give 12:00:00 and 13:00:00 on 2024-01-01. -/
theorem generator_date_kinds (ct name : String) (n : Nat) :
    (classify ct = .date →
      generate_mock_value ct name n = .str (isoDateOf (addDays 2024 1 1 n))) ∧
    (classify ct = .dateTime →
      generate_mock_value ct name n
        = .str (isoDateOf (addDays 2024 1 1 ((12 + n) / 24)) ++ " " ++
            pad2 ((12 + n) % 24) ++ ":00:00")) ∧
    generate_mock_value "date" name 0 = .str "2024-01-01" ∧
    generate_mock_value "date" name 31 = .str "2024-02-01" ∧
    generate_mock_value "datetime" name 0 = .str "2024-01-01 12:00:00" ∧
    generate_mock_value "datetime" name 1 = .str "2024-01-01 13:00:00" := by
  refine ⟨fun h => ?_, fun h => ?_, rfl, rfl, rfl, rfl⟩
  · rw [generate_eq_genForKind, h]; rfl
  · rw [generate_eq_genForKind, h]; rfl

/-- Witness for C4 at `date` and `timestamp` columns. -/
theorem generator_date_kinds_witness :
    generate_mock_value "date" "c" 2 = .str (isoDateOf (addDays 2024 1 1 2)) ∧
    generate_mock_value "timestamp" "c" 2
      = .str (isoDateOf (addDays 2024 1 1 ((12 + 2) / 24)) ++ " " ++
          pad2 ((12 + 2) % 24) ++ ":00:00") :=
  ⟨(generator_date_kinds "date" "c" 2).1 (by decide),
   (generator_date_kinds "timestamp" "c" 2).2.1 (by decide)⟩

/-- C5, counterexample to the Json clause as stated: at column `id`,
ordinal 0, the generated Json value is not the string `mock_id_1` wrapped
in a single-key object literal under any key (with or without a space
after the colon). -/
theorem json_wrap_counterexample :
    ¬ ∃ key : String,
      generate_mock_value "json" "id" 0
          = .str ("\x7b\"" ++ key ++ "\": \"mock_id_1\"\x7d") ∨
      generate_mock_value "json" "id" 0
          = .str ("\x7b\"" ++ key ++ "\":\"mock_id_1\"\x7d") := by
  rintro ⟨key, h | h⟩
  · have h0 : generate_mock_value "json" "id" 0
        = .str "\x7b\"mock\": \"id_1\"\x7d" := rfl
    rw [h0] at h
    injection h with hs
    have hlen := congrArg String.length hs
    rw [String.length_append, String.length_append] at hlen
    have e1 : ("\x7b\"mock\": \"id_1\"\x7d" : String).length = 16 := rfl
    have e2 : ("\x7b\"" : String).length = 2 := rfl
    have e3 : ("\": \"mock_id_1\"\x7d" : String).length = 15 := rfl
    rw [e1, e2, e3] at hlen
    omega
  · have h0 : generate_mock_value "json" "id" 0
        = .str "\x7b\"mock\": \"id_1\"\x7d" := rfl
    rw [h0] at h
    injection h with hs
    have hlen := congrArg String.length hs
    rw [String.length_append, String.length_append] at hlen
    have e1 : ("\x7b\"mock\": \"id_1\"\x7d" : String).length = 16 := rfl
    have e2 : ("\x7b\"" : String).length = 2 := rfl
    have e3 : ("\":\"mock_id_1\"\x7d" : String).length = 14 := rfl
    rw [e1, e2, e3] at hlen
    have hk : key.length = 0 := by omega
    have hkd : key.data = [] := List.eq_nil_of_length_eq_zero hk
    have hke : key = "" := String.ext hkd
    rw [hke] at hs
    exact absurd hs (by decide)

/-- C5 as amended: Text and Unknown columns receive
`mock_<name>_<ordinal+1>`; a Json column receives the single-key object
literal whose key is `mock` and whose value is `<name>_<ordinal+1>`; every
unrecognized raw type still produces a non-empty string. -/
theorem generator_string_kinds (ct name : String) (n : Nat) :
    (classify ct = .text ∨ classify ct = .unknown →
      generate_mock_value ct name n
        = .str ("mock_" ++ name ++ "_" ++ toString (n + 1))) ∧
    (classify ct = .json →
      generate_mock_value ct name n
        = .str ("\x7b\"mock\": \"" ++ name ++ "_" ++ toString (n + 1) ++ "\"\x7d")) ∧
    (classify ct = .unknown →
      ∃ s, generate_mock_value ct name n = .str s ∧ s ≠ "") := by
  refine ⟨fun h => ?_, fun h => ?_, fun h => ?_⟩
  · rcases h with h | h <;> rw [generate_eq_genForKind, h] <;> rfl
  · rw [generate_eq_genForKind, h]; rfl
  · refine ⟨"mock_" ++ name ++ "_" ++ toString (n + 1), ?_, ?_⟩
    · rw [generate_eq_genForKind, h]; rfl
    · intro he
      have hlen := congrArg String.length he
      rw [String.length_append, String.length_append, String.length_append] at hlen
      have e1 : ("mock_" : String).length = 5 := rfl
      have e2 : ("_" : String).length = 1 := rfl
      have e3 : ("" : String).length = 0 := rfl
      rw [e1, e2, e3] at hlen
      omega

/-- Witness for C5 (amended) at `text`, `json` and the unrecognized raw
type `blob`. -/
theorem generator_string_kinds_witness :
    generate_mock_value "text" "name" 0 = .str ("mock_" ++ "name" ++ "_" ++ toString 1) ∧
    generate_mock_value "json" "name" 0
      = .str ("\x7b\"mock\": \"" ++ "name" ++ "_" ++ toString 1 ++ "\"\x7d") ∧
    (∃ s, generate_mock_value "blob" "name" 0 = .str s ∧ s ≠ "") :=
  ⟨(generator_string_kinds "text" "name" 0).1 (Or.inl (by decide)),
   (generator_string_kinds "json" "name" 0).2.1 (by decide),
   (generator_string_kinds "blob" "name" 0).2.2 (by decide)⟩

/-- C6: any raw type containing both `int` and `unsigned` after case
folding classifies as UnsignedInteger and generates `rowOrdinal + 1`. -/
theorem unsigned_classification (ct name : String) (n : Nat)
    (h1 : strIn "int" (lowerStr ct) = true)
    (h2 : strIn "unsigned" (lowerStr ct) = true) :
    classify ct = .unsignedInteger ∧ generate_mock_value ct name n = .int (n + 1) := by
  constructor
  · rw [classify]
    simp [h1, h2]
  · rw [generate_mock_value]
    simp [h1, h2]

/-- Witness for C6 at raw type `BIGINT UNSIGNED`. -/
theorem unsigned_classification_witness :
    classify "BIGINT UNSIGNED" = .unsignedInteger ∧
    generate_mock_value "BIGINT UNSIGNED" "c" 6 = .int 7 :=
  unsigned_classification "BIGINT UNSIGNED" "c" 6 (by decide) (by decide)

/-! ## C7: configuration checking versus connection order -/

/-- C7, counterexample: with credentials present but the required table
name missing, the run opens the connection first and only then fails on
the missing table name — so a missing required setting does not always
precede the connection attempt. -/
theorem table_check_after_connect_counterexample :
    envMissingTable "MYSQL_TABLE" = none ∧
    RunEvent.connect ∈ main_run envMissingTable ∧
    main_run envMissingTable
      = [.connect,
         .tableError "Environment variable MYSQL_TABLE must be set with the table to export",
         .close] := by
  refine ⟨rfl, ?_, rfl⟩
  have h : main_run envMissingTable
      = [.connect,
         .tableError "Environment variable MYSQL_TABLE must be set with the table to export",
         .close] := rfl
  rw [h]
  exact List.mem_cons_self _ _

/-- C7 as amended: missing or invalid connection settings abort the run
before any connection is attempted, but the missing table name is
detected only after the connection is opened (which is then closed). -/
theorem config_phase_order (env : Env) :
    (∀ m, get_db_config env = .error m →
      main_run env = [.configError m] ∧ RunEvent.connect ∉ main_run env) ∧
    (∀ cfg m, get_db_config env = .ok cfg → get_table_name env = .error m →
      main_run env = [.connect, .tableError m, .close]) := by
  constructor
  · intro m h
    have hrun : main_run env = [.configError m] := by
      simp only [main_run, h]
    refine ⟨hrun, ?_⟩
    rw [hrun]
    simp
  · intro cfg m h1 h2
    simp only [main_run, h1, h2]

/-- Witness for C7 (amended): an empty environment fails before
connecting; `envMissingTable` connects, then fails on the table name,
then closes. -/
theorem config_phase_order_witness :
    main_run (fun _ => none) = [.configError "Missing required environment variable"] ∧
    main_run envMissingTable
      = [.connect,
         .tableError "Environment variable MYSQL_TABLE must be set with the table to export",
         .close] :=
  ⟨((config_phase_order (fun _ => none)).1 _ rfl).1,
   (config_phase_order envMissingTable).2 ⟨"localhost", 3306, "u", "p", "d"⟩ _ rfl rfl⟩

/-! ## C8: identifier escaping in every issued statement -/

/-- The escaped interior of a quoted identifier, followed by the closing
backtick, reads back as exactly the original identifier with nothing left
over: doubled backticks are literal and never close the quote. -/
theorem readQuoted_escape (l : List Char) :
    readQuoted (l.flatMap escChar ++ [btChar]) = some (l, []) := by
  induction l with
  | nil => rfl
  | cons c l ih =>
    by_cases hc : c = btChar
    · subst hc
      have hshape : (btChar :: l).flatMap escChar ++ [btChar]
          = btChar :: btChar :: (l.flatMap escChar ++ [btChar]) := by
        simp [escChar]
      rw [hshape, readQuoted, if_pos rfl, if_pos rfl, ih]
      rfl
    · have hshape : (c :: l).flatMap escChar ++ [btChar]
          = c :: (l.flatMap escChar ++ [btChar]) := by
        simp [escChar, hc]
      rw [hshape]
      cases hdt : l.flatMap escChar ++ [btChar] with
      | nil => simp at hdt
      | cons d t =>
        rw [readQuoted, if_neg hc, ← hdt, ih]
        rfl

/-- C8: every SQL statement the program issues interpolates table and
column identifiers only in backtick-quoted, backtick-doubled form, and
the quoted form always reads back as the original identifier (an embedded
backtick is never taken as the closing delimiter). -/
theorem identifier_quoting (table_name : String) (names : List String) :
    count_query table_name = "SELECT COUNT(*) AS count FROM " ++ quoteIdent table_name ∧
    describe_query table_name = "DESCRIBE " ++ quoteIdent table_name ∧
    select_query table_name = "SELECT * FROM " ++ quoteIdent table_name ∧
    insert_query table_name names
      = "INSERT INTO " ++ quoteIdent table_name ++ " (" ++
          String.intercalate ", " (names.map (fun name => quoteIdent name)) ++ ") VALUES (" ++
          String.intercalate ", " (List.replicate names.length "%s") ++ ")" ∧
    readQuoted ((sanitize table_name).data ++ [btChar]) = some (table_name.data, []) ∧
    ∀ name ∈ names, readQuoted ((sanitize name).data ++ [btChar]) = some (name.data, []) := by
  refine ⟨?_, ?_, ?_, ?_, ?_, ?_⟩
  · apply String.ext
    simp [count_query, quoteIdent, String.data_append]
  · apply String.ext
    simp [describe_query, quoteIdent, String.data_append]
  · apply String.ext
    simp [select_query, quoteIdent, String.data_append]
  · apply String.ext
    simp [insert_query, quoteIdent, String.data_append]
  · exact readQuoted_escape table_name.data
  · intro name _
    exact readQuoted_escape name.data

/-! ## C10: integer raw types that fall through to the string fallback -/

/-- Lowering fixes every decimal digit. -/
theorem digit_toLower : ∀ c ∈ digitChars, c.toLower = c := by decide

/-- A `tinyint(<digits>)` descriptor is already lower case. -/
theorem lower_tinyint (d : String) (hd : ∀ c ∈ d.data, c ∈ digitChars) :
    lowerStr ("tinyint(" ++ d ++ ")") = "tinyint(" ++ d ++ ")" := by
  apply String.ext
  show (("tinyint(" ++ d ++ ")").data).map Char.toLower = _
  rw [String.data_append, String.data_append, List.map_append, List.map_append]
  have h1 : ("tinyint(" : String).data.map Char.toLower = ("tinyint(" : String).data := by decide
  have h2 : (")" : String).data.map Char.toLower = (")" : String).data := by decide
  have h3 : d.data.map Char.toLower = d.data := by
    have := List.map_congr_left (fun c hc => digit_toLower c (hd c hc))
    rw [this]
    simp
  rw [h1, h2, h3]

/-- No character outside `tinyint(`, the digits, and `)` occurs in a
`tinyint(<digits>)` descriptor. -/
theorem not_mem_tinyint (d : String) (hd : ∀ c ∈ d.data, c ∈ digitChars)
    (c : Char) (h10 : c ∉ digitChars) (hA : c ∉ ("tinyint(" : String).data)
    (hB : c ∉ (")" : String).data) : c ∉ ("tinyint(" ++ d ++ ")").data := by
  intro hmem
  rw [String.data_append, String.data_append] at hmem
  rcases List.mem_append.mp hmem with hm | hm
  · rcases List.mem_append.mp hm with hm2 | hm2
    · exact hA hm2
    · exact h10 (hd c hm2)
  · exact hB hm

/-- C10: a `tinyint` with any all-digit display width other than `1`
(and likewise `mediumint`) matches no branch of the generator's cascade:
it classifies as Unknown and the generated value is the fallback string
`mock_<name>_<ordinal+1>`, not a number. -/
theorem tinyint_width_fallthrough (d name : String) (i : Nat)
    (hd : ∀ c ∈ d.data, c ∈ digitChars) (h1 : d ≠ "1") :
    classify ("tinyint(" ++ d ++ ")") = .unknown ∧
    generate_mock_value ("tinyint(" ++ d ++ ")") name i
      = .str ("mock_" ++ name ++ "_" ++ toString (i + 1)) ∧
    classify "mediumint" = .unknown ∧
    generate_mock_value "mediumint" name i
      = .str ("mock_" ++ name ++ "_" ++ toString (i + 1)) := by
  have hlow := lower_tinyint d hd
  have miss : ∀ (nd : String) (c : Char), c ∈ nd.data → c ∉ digitChars →
      c ∉ ("tinyint(" : String).data → c ∉ (")" : String).data →
      strIn nd ("tinyint(" ++ d ++ ")") = false := by
    intro nd c hcnd h10 hA hB
    exact containsSeq_eq_false_of_missing hcnd (not_mem_tinyint d hd c h10 hA hB)
  have hUnsigned : strIn "unsigned" ("tinyint(" ++ d ++ ")") = false :=
    miss _ 'u' (by decide) (by decide) (by decide) (by decide)
  have hBigint : strIn "bigint" ("tinyint(" ++ d ++ ")") = false :=
    miss _ 'b' (by decide) (by decide) (by decide) (by decide)
  have hSmallint : strIn "smallint" ("tinyint(" ++ d ++ ")") = false :=
    miss _ 's' (by decide) (by decide) (by decide) (by decide)
  have hDecimal : strIn "decimal" ("tinyint(" ++ d ++ ")") = false :=
    miss _ 'e' (by decide) (by decide) (by decide) (by decide)
  have hNumeric : strIn "numeric" ("tinyint(" ++ d ++ ")") = false :=
    miss _ 'u' (by decide) (by decide) (by decide) (by decide)
  have hFloat : strIn "float" ("tinyint(" ++ d ++ ")") = false :=
    miss _ 'f' (by decide) (by decide) (by decide) (by decide)
  have hDouble : strIn "double" ("tinyint(" ++ d ++ ")") = false :=
    miss _ 'u' (by decide) (by decide) (by decide) (by decide)
  have hBool : strIn "bool" ("tinyint(" ++ d ++ ")") = false :=
    miss _ 'b' (by decide) (by decide) (by decide) (by decide)
  have hDate : strIn "date" ("tinyint(" ++ d ++ ")") = false :=
    miss _ 'a' (by decide) (by decide) (by decide) (by decide)
  have hDatetime : strIn "datetime" ("tinyint(" ++ d ++ ")") = false :=
    miss _ 'a' (by decide) (by decide) (by decide) (by decide)
  have hTimestamp : strIn "timestamp" ("tinyint(" ++ d ++ ")") = false :=
    miss _ 'm' (by decide) (by decide) (by decide) (by decide)
  have hTime : strIn "time" ("tinyint(" ++ d ++ ")") = false :=
    miss _ 'm' (by decide) (by decide) (by decide) (by decide)
  have hChar : strIn "char" ("tinyint(" ++ d ++ ")") = false :=
    miss _ 'h' (by decide) (by decide) (by decide) (by decide)
  have hText : strIn "text" ("tinyint(" ++ d ++ ")") = false :=
    miss _ 'x' (by decide) (by decide) (by decide) (by decide)
  have hJson : strIn "json" ("tinyint(" ++ d ++ ")") = false :=
    miss _ 'j' (by decide) (by decide) (by decide) (by decide)
  have hStart : strStarts "int" ("tinyint(" ++ d ++ ")") = false := by
    show List.isPrefixOf _ _ = false
    rw [String.data_append, String.data_append]
    rfl
  have hTiny1 : (("tinyint(" ++ d ++ ")" : String) == "tinyint(1)") = false := by
    apply beq_eq_false_iff_ne.mpr
    intro heq
    have hdata := congrArg String.data heq
    rw [String.data_append, String.data_append] at hdata
    have hsplit : ("tinyint(1)" : String).data
        = ("tinyint(" : String).data ++ (['1'] ++ (")" : String).data) := by decide
    rw [hsplit, List.append_assoc] at hdata
    have hmid := List.append_cancel_left hdata
    have hd1 : d.data = ['1'] := List.append_cancel_right hmid
    exact h1 (String.ext hd1)
  refine ⟨?_, ?_, by decide, rfl⟩
  · rw [classify]
    simp only [hlow, hUnsigned, hBigint, hSmallint, hDecimal, hNumeric, hFloat, hDouble,
      hBool, hDate, hDatetime, hTimestamp, hTime, hChar, hText, hJson, hStart, hTiny1,
      Bool.and_false, Bool.false_and, Bool.or_false, Bool.false_or, Bool.false_eq_true,
      if_false]
  · rw [generate_mock_value]
    simp only [hlow, hUnsigned, hBigint, hSmallint, hDecimal, hNumeric, hFloat, hDouble,
      hBool, hDate, hDatetime, hTimestamp, hTime, hChar, hText, hJson, hStart, hTiny1,
      Bool.and_false, Bool.false_and, Bool.or_false, Bool.false_or, Bool.false_eq_true,
      if_false]

/-- Witness for C10 at display width 4 (`tinyint(4)`). -/
theorem tinyint_width_fallthrough_witness :
    classify ("tinyint(" ++ "4" ++ ")") = .unknown ∧
    generate_mock_value ("tinyint(" ++ "4" ++ ")") "qty" 0
      = .str ("mock_" ++ "qty" ++ "_" ++ toString 1) ∧
    classify "mediumint" = .unknown ∧
    generate_mock_value "mediumint" "qty" 0
      = .str ("mock_" ++ "qty" ++ "_" ++ toString 1) :=
  tinyint_width_fallthrough "4" "qty" 0 (by decide) (by decide)

end Ingesta
